import Mathlib

/-!
Verification development for the dd-bot-rs Discord translation bot
(src/main.rs).  The program's data model and its three core functions —
`create_reply_message` (the reply composer), `get_language_config` (the
per-channel config resolver) and `deepl_translate` (the DeepL client) —
are shallowly embedded below; the network, the Discord API and JSON text
lexing are abstracted as explicit inputs.  All embedded definitions are
translated from the Rust source; theorems about them follow.
-/

namespace DdBot

/-- One translation entry of a DeepL response: `deepl::DeepLTranslation`
in main.rs (fields `text`, `detected_source_language`). -/
structure DeepLTranslation where
  text : String
  detected_source_language : String
deriving DecidableEq, Repr

/-- A DeepL response body: `deepl::DeeplTranslationResopnse` in main.rs
(field `translations: Vec<DeepLTranslation>`; the typo is the source's). -/
structure DeeplTranslationResopnse where
  translations : List DeepLTranslation
deriving DecidableEq, Repr

/-- Per-channel language configuration: `DdBotChannelConfig` in main.rs
(fields `default_lang`, `target_lang`). -/
structure DdBotChannelConfig where
  default_lang : String
  target_lang : String
deriving DecidableEq, Repr

/-- Outcome of one run of the reply composer.  `reply s` models
`Some(s)`, `suppressed` models `None`, and `crash` models the Rust
panic raised by an out-of-bounds `Vec` index (`translations[0]` on an
empty vector). -/
inductive ReplyOutcome where
  | reply (text : String)
  | suppressed
  | crash
deriving DecidableEq, Repr

/-- A run of the reply composer: the reverse-translation calls it issued
(each recorded as `(text, target_lang)`, in order) together with its
outcome. -/
structure ComposerRun where
  calls : List (String × String)
  outcome : ReplyOutcome
deriving DecidableEq, Repr

/-- The translate collaborator as seen by the composer and the
dispatcher: `deepl_translate(text, target_lang, api_key)` with the API
key and the HTTP transport abstracted into the function itself.
`Except.error` carries the error message string. -/
def TranslateFn : Type := String → String → Except String DeeplTranslationResopnse

/-- Embedding of `create_reply_message` from main.rs.  Mirrors the Rust
control flow exactly: the `len() > 1` suppression guard, the unchecked
index `translations[0]` (modelled by `List.get?`, `none` = panic =
`ReplyOutcome.crash`), the three-way branch on
`detected_source_language` versus `target_lang` / `default_lang` under
`String` equality, the single optional reverse call to `default_lang`,
and the exact `format!` strings of each branch. -/
def create_reply_message (deepl_response : DeeplTranslationResopnse)
    (language_config : DdBotChannelConfig) (original_text : String)
    (translate : TranslateFn) : ComposerRun :=
  if deepl_response.translations.length > 1 then
    ⟨[], .suppressed⟩
  else
    match deepl_response.translations.get? 0 with
    | none => ⟨[], .crash⟩
    | some translation =>
      if translation.detected_source_language ≠ language_config.target_lang
          ∧ translation.detected_source_language ≠ language_config.default_lang then
        match translate original_text language_config.default_lang with
        | .ok translation_result =>
          match translation_result.translations.get? 0 with
          | none => ⟨[(original_text, language_config.default_lang)], .crash⟩
          | some reverse =>
            ⟨[(original_text, language_config.default_lang)],
              .reply ("`" ++ language_config.target_lang ++ ": ` "
                ++ translation.text ++ " \n`" ++ language_config.default_lang
                ++ ": ` " ++ reverse.text ++ " \n(translated from `"
                ++ translation.detected_source_language ++ "`)")⟩
        | .error _ =>
          ⟨[(original_text, language_config.default_lang)],
            .reply ("Failed to translate to `" ++ language_config.default_lang ++ "`")⟩
      else if translation.detected_source_language = language_config.target_lang then
        match translate original_text language_config.default_lang with
        | .ok translation_result =>
          match translation_result.translations.get? 0 with
          | none => ⟨[(original_text, language_config.default_lang)], .crash⟩
          | some reverse =>
            ⟨[(original_text, language_config.default_lang)],
              .reply ("`" ++ language_config.default_lang ++ ": ` " ++ reverse.text)⟩
        | .error _ =>
          ⟨[(original_text, language_config.default_lang)],
            .reply ("Failed to translate `" ++ original_text ++ "` to `"
              ++ language_config.default_lang ++ "`")⟩
      else
        ⟨[], .reply ("`" ++ language_config.target_lang ++ ": "
          ++ translation.text ++ "`")⟩

/-- A JSON value, for modelling the `serde_json::from_str` call on the
channel topic.  Objects keep their fields in order, duplicates included,
as in the serialized text. -/
inductive Json where
  | null
  | bool (b : Bool)
  | num (n : Int)
  | str (s : String)
  | arr (xs : List Json)
  | obj (fields : List (String × Json))

/-- Values bound to `key` in an object field list, in order. -/
def jsonFieldValues (fields : List (String × Json)) (key : String) : List Json :=
  (fields.filter (fun p => p.fst = key)).map Prod.snd

/-- serde deserialization of `DdBotChannelConfig` from a JSON value:
the input must be an object carrying each of `default_lang` and
`target_lang` exactly once with a string value (serde rejects a missing
field, a duplicated field and a non-string value; unknown extra fields
are ignored).  `none` models `serde_json` returning `Err`. -/
def decodeDdBotChannelConfig : Json → Option DdBotChannelConfig
  | .obj fields =>
    match jsonFieldValues fields "default_lang", jsonFieldValues fields "target_lang" with
    | [.str d], [.str t] => some ⟨d, t⟩
    | _, _ => none
  | _ => none

/-- What the Discord channel lookup chain in `get_language_config`
yields for the message's channel: the three failure exits (the
`msg.channel` call errors, the channel is not a guild channel, the
guild channel has no topic) or a topic string.  The topic string is
abstracted to its JSON parse: `topic none` is a topic whose text is not
valid JSON, `topic (some j)` a topic whose text parses to `j`. -/
inductive ChannelLookup where
  | channelErr
  | noGuild
  | noTopic
  | topic (parsed : Option Json)

/-- Embedding of `get_language_config` from main.rs.  `envDefault` and
`envTarget` are the `DEFAULT_LANGUAGE` and `TARGET_LANGUAGE` environment
variables (`none` = unset, falling back to `"JA"`); `lookup` is the
channel lookup chain's result.  Every failure exit and the
`serde_json::from_str(..).unwrap_or(default_config)` fallback return the
defaults; a successful parse is returned verbatim. -/
def get_language_config (envDefault envTarget : Option String)
    (lookup : ChannelLookup) : DdBotChannelConfig :=
  let default_lang := envDefault.getD "JA"
  let target_lang := envTarget.getD "JA"
  let default_config : DdBotChannelConfig := ⟨default_lang, target_lang⟩
  match lookup with
  | .channelErr => default_config
  | .noGuild => default_config
  | .noTopic => default_config
  | .topic none => default_config
  | .topic (some j) => (decodeDdBotChannelConfig j).getD default_config

/-- What the HTTP layer under `deepl_translate` yields for one request:
a 2xx response whose body decodes (`ok (some r)`), a 2xx response whose
body fails to decode (`ok none`), a non-2xx status, or a transport
failure. -/
inductive HttpOutcome where
  | ok (body : Option DeeplTranslationResopnse)
  | statusCode (code : Nat)
  | transport
deriving DecidableEq, Repr

/-- Embedding of `deepl_translate` from main.rs over an abstracted HTTP
outcome: `Ok` with a decodable body yields the response, a decode
failure propagates through `?` as an error, `ureq::Error::StatusCode`
becomes the formatted server-error message and any other `ureq` error
the fixed connect-failure message. -/
def deepl_translate (outcome : HttpOutcome) : Except String DeeplTranslationResopnse :=
  match outcome with
  | .ok (some translated_texts) => .ok translated_texts
  | .ok none => .error "failed to decode DeepL response body"
  | .statusCode code => .error ("Server error: " ++ toString code)
  | .transport => .error "Failed to connect to DeepL API"

/-- The inbound Discord message as the handler reads it: the author's
bot flag and the content. -/
structure MessageIn where
  author_bot : Bool
  content : String
deriving DecidableEq, Repr

/-- A run of the message handler: every DeepL call issued (primary and
reverse, as `(text, target_lang)`, in order), every reply sent to the
channel, and whether the handler panicked (via a composer crash). -/
structure DispatchRun where
  deeplCalls : List (String × String)
  replies : List String
  crashed : Bool
deriving DecidableEq, Repr

/-- Embedding of `Handler::message` from main.rs.  `isUrl` models
`Url::parse(content).is_ok()`; `translate` models `deepl_translate`
with the API key fixed.  Mirrors the Rust flow: the bot/empty filter,
the URL filter, config resolution, the primary translate call, then
either the composer's reply (sent), its `None` (warning only) or the
error branch's fixed failure notice.  Reply delivery errors are logged
only, so a sent reply is always recorded. -/
def handler_message (msg : MessageIn) (isUrl : String → Bool)
    (envDefault envTarget : Option String) (lookup : ChannelLookup)
    (translate : TranslateFn) : DispatchRun :=
  if msg.author_bot || msg.content.isEmpty then
    ⟨[], [], false⟩
  else if isUrl msg.content then
    ⟨[], [], false⟩
  else
    let config := get_language_config envDefault envTarget lookup
    match translate msg.content config.target_lang with
    | .ok translation_result =>
      let run := create_reply_message translation_result config msg.content translate
      match run.outcome with
      | .reply s => ⟨(msg.content, config.target_lang) :: run.calls, [s], false⟩
      | .suppressed => ⟨(msg.content, config.target_lang) :: run.calls, [], false⟩
      | .crash => ⟨(msg.content, config.target_lang) :: run.calls, [], true⟩
    | .error _ =>
      ⟨[(msg.content, config.target_lang)], ["Failed to translate using DeepL"], false⟩

/-- Claim C3: for every single-entry primary result whose detected source
language equals neither `target_lang` nor `default_lang`, the composer
issues exactly one reverse translation to `default_lang`, and on reverse
success returns a reply of two lines — the `target_lang` line with the
primary translation, then the `default_lang` line with the reverse
translation, in that order — annotated with the detected source
language. -/
theorem c3_third_lang_reverse_success
    (t : DeepLTranslation) (cfg : DdBotChannelConfig) (orig : String)
    (tr : TranslateFn) (rresp : DeeplTranslationResopnse) (rt : DeepLTranslation)
    (rest : List DeepLTranslation)
    (hT : t.detected_source_language ≠ cfg.target_lang)
    (hD : t.detected_source_language ≠ cfg.default_lang)
    (hrev : tr orig cfg.default_lang = .ok rresp)
    (hfirst : rresp.translations = rt :: rest) :
    create_reply_message ⟨[t]⟩ cfg orig tr =
      ⟨[(orig, cfg.default_lang)],
        .reply ("`" ++ cfg.target_lang ++ ": ` " ++ t.text ++ " \n`"
          ++ cfg.default_lang ++ ": ` " ++ rt.text ++ " \n(translated from `"
          ++ t.detected_source_language ++ "`)")⟩ := by
  simp [create_reply_message, hrev, hfirst, hT, hD]

/-- Witness for C3: the spec's P5 instance — detected "NL", target "JA",
default "EN": the reply carries the JA line, then the EN line, annotated
with NL, and exactly one reverse call to EN was issued. -/
theorem c3_witness :
    create_reply_message ⟨[⟨"hoi", "NL"⟩]⟩ ⟨"EN", "JA"⟩ "hoi"
        (fun _ _ => .ok ⟨[⟨"Hello", "NL"⟩]⟩) =
      ⟨[("hoi", "EN")],
        .reply ("`" ++ "JA" ++ ": ` " ++ "hoi" ++ " \n`" ++ "EN" ++ ": ` "
          ++ "Hello" ++ " \n(translated from `" ++ "NL" ++ "`)")⟩ :=
  c3_third_lang_reverse_success ⟨"hoi", "NL"⟩ ⟨"EN", "JA"⟩ "hoi"
    (fun _ _ => .ok ⟨[⟨"Hello", "NL"⟩]⟩) ⟨[⟨"Hello", "NL"⟩]⟩ ⟨"Hello", "NL"⟩ []
    (by decide) (by decide) rfl rfl

/-- Claim C4: for every single-entry primary result whose detected source
language equals neither `target_lang` nor `default_lang`, when the
reverse translation call fails the composer returns a failure notice
naming `default_lang`, and the successful primary translation is
discarded: the reply is a fixed string independent of the primary
translated text. -/
theorem c4_third_lang_reverse_failure
    (t : DeepLTranslation) (cfg : DdBotChannelConfig) (orig : String)
    (tr : TranslateFn) (e : String)
    (hT : t.detected_source_language ≠ cfg.target_lang)
    (hD : t.detected_source_language ≠ cfg.default_lang)
    (hrev : tr orig cfg.default_lang = .error e) :
    create_reply_message ⟨[t]⟩ cfg orig tr =
      ⟨[(orig, cfg.default_lang)],
        .reply ("Failed to translate to `" ++ cfg.default_lang ++ "`")⟩
    ∧ ∀ t2 : DeepLTranslation,
        t2.detected_source_language = t.detected_source_language →
        create_reply_message ⟨[t2]⟩ cfg orig tr
          = create_reply_message ⟨[t]⟩ cfg orig tr := by
  constructor
  · simp [create_reply_message, hrev, hT, hD]
  · intro t2 h2
    simp [create_reply_message, hrev, hT, hD, h2]

/-- Witness for C4: detected "NL", target "JA", default "EN", reverse
call failing: the reply is the fixed notice naming EN, and a primary
text change does not change the reply. -/
theorem c4_witness :
    create_reply_message ⟨[⟨"hoi", "NL"⟩]⟩ ⟨"EN", "JA"⟩ "hoi"
        (fun _ _ => .error "boom") =
      ⟨[("hoi", "EN")], .reply ("Failed to translate to `" ++ "EN" ++ "`")⟩ :=
  (c4_third_lang_reverse_failure ⟨"hoi", "NL"⟩ ⟨"EN", "JA"⟩ "hoi"
    (fun _ _ => .error "boom") "boom" (by decide) (by decide) rfl).1

/-- Claim C5: for every single-entry primary result whose detected source
language equals `target_lang`, the composer issues exactly one reverse
call to `default_lang`; on reverse success the reply is the single line
`default_lang: <reverse translation>` (never the primary result), and on
reverse failure a failure notice naming `default_lang`, with no second
reverse attempt in either case. -/
theorem c5_target_equals_source_reverse
    (t : DeepLTranslation) (cfg : DdBotChannelConfig) (orig : String)
    (tr : TranslateFn)
    (hT : t.detected_source_language = cfg.target_lang) :
    (∀ (rresp : DeeplTranslationResopnse) (rt : DeepLTranslation)
        (rest : List DeepLTranslation),
      tr orig cfg.default_lang = .ok rresp → rresp.translations = rt :: rest →
      create_reply_message ⟨[t]⟩ cfg orig tr =
        ⟨[(orig, cfg.default_lang)],
          .reply ("`" ++ cfg.default_lang ++ ": ` " ++ rt.text)⟩)
    ∧ ∀ e, tr orig cfg.default_lang = .error e →
        create_reply_message ⟨[t]⟩ cfg orig tr =
          ⟨[(orig, cfg.default_lang)],
            .reply ("Failed to translate `" ++ orig ++ "` to `"
              ++ cfg.default_lang ++ "`")⟩ := by
  constructor
  · intro rresp rt rest hrev hfirst
    simp [create_reply_message, hrev, hfirst, hT]
  · intro e hrev
    simp [create_reply_message, hrev, hT]

/-- Witness for C5: the spec's P4 instance — detected "JA" equal to
target "JA", default "EN": on reverse success with "Hello" the reply is
the EN line with "Hello" and one reverse call to EN; on reverse failure
the reply is a failure notice naming EN and still only one reverse
call. -/
theorem c5_witness :
    create_reply_message ⟨[⟨"x", "JA"⟩]⟩ ⟨"EN", "JA"⟩ "konnichiwa"
        (fun _ _ => .ok ⟨[⟨"Hello", "JA"⟩]⟩) =
      ⟨[("konnichiwa", "EN")], .reply ("`" ++ "EN" ++ ": ` " ++ "Hello")⟩
    ∧ create_reply_message ⟨[⟨"x", "JA"⟩]⟩ ⟨"EN", "JA"⟩ "konnichiwa"
        (fun _ _ => .error "boom") =
      ⟨[("konnichiwa", "EN")],
        .reply ("Failed to translate `" ++ "konnichiwa" ++ "` to `" ++ "EN" ++ "`")⟩ :=
  ⟨(c5_target_equals_source_reverse ⟨"x", "JA"⟩ ⟨"EN", "JA"⟩ "konnichiwa"
      (fun _ _ => .ok ⟨[⟨"Hello", "JA"⟩]⟩) rfl).1 ⟨[⟨"Hello", "JA"⟩]⟩
      ⟨"Hello", "JA"⟩ [] rfl rfl,
    (c5_target_equals_source_reverse ⟨"x", "JA"⟩ ⟨"EN", "JA"⟩ "konnichiwa"
      (fun _ _ => .error "boom") rfl).2 "boom" rfl⟩

/-- Claim C6: for every single-entry primary result whose detected source
language equals `default_lang` and not `target_lang`, the composer
issues no second translate call and returns the single line
`target_lang: <primary translation>`, the whole line wrapped in
backticks. -/
theorem c6_normal_case_single_line
    (t : DeepLTranslation) (cfg : DdBotChannelConfig) (orig : String)
    (tr : TranslateFn)
    (hD : t.detected_source_language = cfg.default_lang)
    (hT : t.detected_source_language ≠ cfg.target_lang) :
    create_reply_message ⟨[t]⟩ cfg orig tr =
      ⟨[], .reply ("`" ++ cfg.target_lang ++ ": " ++ t.text ++ "`")⟩ := by
  have hDT : cfg.default_lang ≠ cfg.target_lang := hD ▸ hT
  simp [create_reply_message, hD, hT, hDT]

/-- Witness for C6: the spec's P3 instance — primary text "こんにちは"
detected as "EN", config default "EN" / target "JA": the output is
exactly the backtick-wrapped line `JA: こんにちは` and no reverse call is
issued. -/
theorem c6_witness :
    create_reply_message ⟨[⟨"こんにちは", "EN"⟩]⟩ ⟨"EN", "JA"⟩ "hello"
        (fun _ _ => .error "never called") =
      ⟨[], .reply "`JA: こんにちは`"⟩ :=
  c6_normal_case_single_line ⟨"こんにちは", "EN"⟩ ⟨"EN", "JA"⟩ "hello"
    (fun _ _ => .error "never called") (by decide) (by decide)

/-- Counterexample to C1: the branch comparison is case-sensitive, not
case-insensitive.  With detected source "JA" the composer selects the
target-equals branch for target "JA" but the third-language branch for
target "ja" — the same response and two configs differing only in the
letter case of one code yield different outcomes — and the Config
Resolver returns topic codes "en"/"ja" verbatim, not upper-cased. -/
theorem c1_counterexample :
    ((create_reply_message ⟨[⟨"text", "JA"⟩]⟩ ⟨"EN", "JA"⟩ "orig"
        (fun _ _ => .ok ⟨[⟨"rev", "X"⟩]⟩)).outcome
      ≠ (create_reply_message ⟨[⟨"text", "JA"⟩]⟩ ⟨"EN", "ja"⟩ "orig"
        (fun _ _ => .ok ⟨[⟨"rev", "X"⟩]⟩)).outcome)
    ∧ get_language_config none none
        (.topic (some (.obj [("default_lang", Json.str "en"),
          ("target_lang", Json.str "ja")])))
      = ⟨"en", "ja"⟩ := by
  exact ⟨by decide, rfl⟩

/-- Claim C1 (amended): the composer's branch selection and its decision
to issue a reverse call are keyed on exact, case-sensitive string
equality of `detected_source_language` against `target_lang` and
`default_lang` — no reverse call exactly when the detected language
equals `default_lang` and differs from `target_lang` — and the Config
Resolver returns the parsed topic codes verbatim with no case
normalization, so codes differing only in letter case can select
different branches. -/
theorem c1_amended_case_sensitive :
    (∀ (envDefault envTarget : Option String) (d t : String),
      get_language_config envDefault envTarget
          (.topic (some (.obj [("default_lang", Json.str d),
            ("target_lang", Json.str t)])))
        = ⟨d, t⟩)
    ∧ ∀ (tl : DeepLTranslation) (cfg : DdBotChannelConfig) (orig : String)
        (tr : TranslateFn),
      (create_reply_message ⟨[tl]⟩ cfg orig tr).calls =
        if tl.detected_source_language = cfg.default_lang
            ∧ tl.detected_source_language ≠ cfg.target_lang then []
        else [(orig, cfg.default_lang)] := by
  constructor
  · intro envDefault envTarget d t
    rfl
  · intro tl cfg orig tr
    by_cases hT : tl.detected_source_language = cfg.target_lang
    · rw [if_neg (fun h => h.2 hT)]
      cases htr : tr orig cfg.default_lang with
      | ok r =>
        cases hr : r.translations with
        | nil => simp [create_reply_message, hT, htr, hr]
        | cons a l => simp [create_reply_message, hT, htr, hr]
      | error e => simp [create_reply_message, hT, htr]
    · by_cases hD : tl.detected_source_language = cfg.default_lang
      · rw [if_pos ⟨hD, hT⟩]
        have hDT : cfg.default_lang ≠ cfg.target_lang := hD ▸ hT
        simp [create_reply_message, hT, hD, hDT]
      · rw [if_neg (fun h => hD h.1)]
        cases htr : tr orig cfg.default_lang with
        | ok r =>
          cases hr : r.translations with
          | nil => simp [create_reply_message, hT, hD, htr, hr]
          | cons a l => simp [create_reply_message, hT, hD, htr, hr]
        | error e => simp [create_reply_message, hT, hD, htr]

/-- Claim C2: the composer's access of the first translation entry is in
bounds for every response with at least one entry — with a non-empty
list, the only way to crash is a reverse-translation success carrying an
empty list — while an empty primary list is not suppressed by the
`len() > 1` guard and reaches the out-of-bounds access of entry 0, and a
reverse success with an empty list likewise reaches an out-of-bounds
access of its entry 0. -/
theorem c2_first_entry_access (resp : DeeplTranslationResopnse)
    (cfg : DdBotChannelConfig) (orig : String) (tr : TranslateFn) :
    (resp.translations = [] →
      (create_reply_message resp cfg orig tr).outcome = .crash)
    ∧ (resp.translations ≠ [] →
        (create_reply_message resp cfg orig tr).outcome = .crash →
        ∃ r, tr orig cfg.default_lang = .ok r ∧ r.translations = [])
    ∧ ∀ t : DeepLTranslation, resp.translations = [t] →
        t.detected_source_language = cfg.target_lang →
        tr orig cfg.default_lang = .ok ⟨[]⟩ →
        (create_reply_message resp cfg orig tr).outcome = .crash := by
  refine ⟨fun hnil => ?_, fun hne hcrash => ?_, fun t hsingle hT htr => ?_⟩
  · simp [create_reply_message, hnil]
  · match hres : resp.translations with
    | [] => exact absurd hres hne
    | t :: t2 :: rest => simp [create_reply_message, hres] at hcrash
    | [t] =>
      by_cases hT : t.detected_source_language = cfg.target_lang
      · cases htr : tr orig cfg.default_lang with
        | ok r =>
          refine ⟨r, rfl, ?_⟩
          cases hr : r.translations with
          | nil => rfl
          | cons a l => simp [create_reply_message, hres, hT, htr, hr] at hcrash
        | error e => simp [create_reply_message, hres, hT, htr] at hcrash
      · by_cases hD : t.detected_source_language = cfg.default_lang
        · have hDT : cfg.default_lang ≠ cfg.target_lang := hD ▸ hT
          simp [create_reply_message, hres, hT, hD, hDT] at hcrash
        · cases htr : tr orig cfg.default_lang with
          | ok r =>
            refine ⟨r, rfl, ?_⟩
            cases hr : r.translations with
            | nil => rfl
            | cons a l => simp [create_reply_message, hres, hT, hD, htr, hr] at hcrash
          | error e => simp [create_reply_message, hres, hT, hD, htr] at hcrash
  · simp [create_reply_message, hsingle, hT, htr]

/-- Witness for C2: an empty primary list crashes (it slips past the
`len() > 1` guard), and a single-entry target-language result whose
reverse call succeeds with an empty list crashes at the reverse entry-0
access. -/
theorem c2_witness :
    (create_reply_message ⟨[]⟩ ⟨"EN", "JA"⟩ "hi"
        (fun _ _ => .error "e")).outcome = .crash
    ∧ (create_reply_message ⟨[⟨"x", "JA"⟩]⟩ ⟨"EN", "JA"⟩ "hi"
        (fun _ _ => .ok ⟨[]⟩)).outcome = .crash :=
  ⟨(c2_first_entry_access ⟨[]⟩ ⟨"EN", "JA"⟩ "hi" (fun _ _ => .error "e")).1 rfl,
    (c2_first_entry_access ⟨[⟨"x", "JA"⟩]⟩ ⟨"EN", "JA"⟩ "hi"
      (fun _ _ => .ok ⟨[]⟩)).2.2 ⟨"x", "JA"⟩ rfl rfl rfl⟩

/-- Claim C7: a primary response with more than one translation entry is
suppressed — the composer returns no reply text and issues no reverse
call — and the dispatcher sends zero replies for such a message. -/
theorem c7_multi_result_suppressed (resp : DeeplTranslationResopnse)
    (hlen : resp.translations.length > 1) :
    (∀ (cfg : DdBotChannelConfig) (orig : String) (tr : TranslateFn),
      create_reply_message resp cfg orig tr = ⟨[], .suppressed⟩)
    ∧ ∀ (msg : MessageIn) (isUrl : String → Bool)
        (envDefault envTarget : Option String) (lookup : ChannelLookup)
        (tr : TranslateFn),
      tr msg.content (get_language_config envDefault envTarget lookup).target_lang
          = .ok resp →
      (handler_message msg isUrl envDefault envTarget lookup tr).replies = [] := by
  have hcomp : ∀ (cfg : DdBotChannelConfig) (orig : String) (tr : TranslateFn),
      create_reply_message resp cfg orig tr = ⟨[], .suppressed⟩ := by
    intro cfg orig tr
    simp [create_reply_message, hlen]
  refine ⟨hcomp, ?_⟩
  intro msg isUrl envDefault envTarget lookup tr htr
  by_cases hskip : msg.author_bot || msg.content.isEmpty
  · simp [handler_message, hskip]
  · by_cases hurl : isUrl msg.content
    · simp [handler_message, hskip, hurl]
    · simp [handler_message, hskip, hurl, htr, hcomp]

/-- Witness for C7: a two-entry response is suppressed by the composer,
and the dispatcher sends no reply for a message whose primary call
returns it. -/
theorem c7_witness :
    create_reply_message ⟨[⟨"a", "EN"⟩, ⟨"b", "EN"⟩]⟩ ⟨"EN", "JA"⟩ "hi"
        (fun _ _ => .error "e") = ⟨[], .suppressed⟩
    ∧ (handler_message ⟨false, "hi"⟩ (fun _ => false) none none .noTopic
        (fun _ _ => .ok ⟨[⟨"a", "EN"⟩, ⟨"b", "EN"⟩]⟩)).replies = [] :=
  ⟨(c7_multi_result_suppressed ⟨[⟨"a", "EN"⟩, ⟨"b", "EN"⟩]⟩ (by decide)).1
      ⟨"EN", "JA"⟩ "hi" (fun _ _ => .error "e"),
    (c7_multi_result_suppressed ⟨[⟨"a", "EN"⟩, ⟨"b", "EN"⟩]⟩ (by decide)).2
      ⟨false, "hi"⟩ (fun _ => false) none none .noTopic
      (fun _ _ => .ok ⟨[⟨"a", "EN"⟩, ⟨"b", "EN"⟩]⟩) rfl⟩

/-- Counterexample to C8: the resolver is not guaranteed to return a
fully populated config with non-empty fields.  With non-empty process
defaults "EN"/"JA", a topic that parses as a record whose
`default_lang` field is the empty string is accepted verbatim, so the
returned config has an empty `default_lang`. -/
theorem c8_counterexample :
    get_language_config (some "EN") (some "JA")
        (.topic (some (.obj [("default_lang", Json.str ""),
          ("target_lang", Json.str "JA")])))
      = ⟨"", "JA"⟩
    ∧ (get_language_config (some "EN") (some "JA")
        (.topic (some (.obj [("default_lang", Json.str ""),
          ("target_lang", Json.str "JA")])))).default_lang.isEmpty = true :=
  ⟨rfl, rfl⟩

/-- Claim C8 (amended): the Config Resolver is total and silently falls
back — every failure of the lookup chain (channel lookup error, non-guild
channel, unset topic, topic text that is not JSON) and every topic that
does not decode as a record with both language fields returns the
process defaults exactly, with no error propagated — but a topic that
does decode is returned verbatim, so a resolved field can be empty even
when the process defaults are non-empty. -/
theorem c8_amended_silent_fallback (envDefault envTarget : Option String) :
    (∀ lookup : ChannelLookup,
      (lookup = .channelErr ∨ lookup = .noGuild ∨ lookup = .noTopic
        ∨ lookup = .topic none) →
      get_language_config envDefault envTarget lookup
        = ⟨envDefault.getD "JA", envTarget.getD "JA"⟩)
    ∧ (∀ j : Json, decodeDdBotChannelConfig j = none →
        get_language_config envDefault envTarget (.topic (some j))
          = ⟨envDefault.getD "JA", envTarget.getD "JA"⟩)
    ∧ ∀ (j : Json) (c : DdBotChannelConfig), decodeDdBotChannelConfig j = some c →
        get_language_config envDefault envTarget (.topic (some j)) = c := by
  refine ⟨fun lookup h => ?_, fun j hj => ?_, fun j c hj => ?_⟩
  · rcases h with h | h | h | h <;> subst h <;> rfl
  · simp [get_language_config, hj]
  · simp [get_language_config, hj]

/-- Witness for C8 (amended): a failed channel lookup, a non-record
topic, and a well-formed topic record, each resolved concretely. -/
theorem c8_witness :
    get_language_config none none .channelErr = ⟨"JA", "JA"⟩
    ∧ get_language_config none none (.topic (some Json.null)) = ⟨"JA", "JA"⟩
    ∧ get_language_config none none
        (.topic (some (.obj [("default_lang", Json.str "EN"),
          ("target_lang", Json.str "DE")])))
      = ⟨"EN", "DE"⟩ :=
  ⟨(c8_amended_silent_fallback none none).1 .channelErr (Or.inl rfl),
    (c8_amended_silent_fallback none none).2.1 Json.null rfl,
    (c8_amended_silent_fallback none none).2.2
      (.obj [("default_lang", Json.str "EN"), ("target_lang", Json.str "DE")])
      ⟨"EN", "DE"⟩ rfl⟩

/-- Claim C9: a message from a bot author, or with empty content, or
whose content parses as a well-formed URL, is dropped by the dispatcher:
zero DeepL calls are issued and zero replies are sent. -/
theorem c9_filters_drop_message (msg : MessageIn) (isUrl : String → Bool)
    (envDefault envTarget : Option String) (lookup : ChannelLookup)
    (tr : TranslateFn)
    (h : msg.author_bot = true ∨ msg.content = "" ∨ isUrl msg.content = true) :
    handler_message msg isUrl envDefault envTarget lookup tr = ⟨[], [], false⟩ := by
  rcases h with h | h | h
  · simp [handler_message, h]
  · have h2 : msg.content.isEmpty = true := by rw [h]; rfl
    simp [handler_message, h2]
  · by_cases hskip : msg.author_bot || msg.content.isEmpty
    · simp [handler_message, hskip]
    · simp [handler_message, hskip, h]

/-- Witness for C9: a bot-authored message, an empty message and a
URL message each produce zero DeepL calls and zero replies. -/
theorem c9_witness :
    handler_message ⟨true, "hello"⟩ (fun _ => false) none none .noTopic
        (fun _ _ => .error "e") = ⟨[], [], false⟩
    ∧ handler_message ⟨false, ""⟩ (fun _ => false) none none .noTopic
        (fun _ _ => .error "e") = ⟨[], [], false⟩
    ∧ handler_message ⟨false, "https a b"⟩ (fun _ => true) none none .noTopic
        (fun _ _ => .error "e") = ⟨[], [], false⟩ :=
  ⟨c9_filters_drop_message ⟨true, "hello"⟩ (fun _ => false) none none .noTopic
      (fun _ _ => .error "e") (Or.inl rfl),
    c9_filters_drop_message ⟨false, ""⟩ (fun _ => false) none none .noTopic
      (fun _ _ => .error "e") (Or.inr (Or.inl rfl)),
    c9_filters_drop_message ⟨false, "https a b"⟩ (fun _ => true) none none .noTopic
      (fun _ _ => .error "e") (Or.inr (Or.inr rfl))⟩

/-- Claim C10: when the primary DeepL call fails — transport failure,
non-2xx status, or a body that fails to decode — the dispatcher does
not invoke the composer (the primary call is the only DeepL call),
delivers exactly the one fixed failure notice, and does not crash. -/
theorem c10_primary_failure_notice (msg : MessageIn) (isUrl : String → Bool)
    (envDefault envTarget : Option String) (lookup : ChannelLookup)
    (world : String → String → HttpOutcome)
    (hbot : msg.author_bot = false) (hne : msg.content ≠ "")
    (hurl : isUrl msg.content = false)
    (hfail :
      world msg.content (get_language_config envDefault envTarget lookup).target_lang
          = .transport
      ∨ (∃ code, world msg.content
            (get_language_config envDefault envTarget lookup).target_lang
          = .statusCode code)
      ∨ world msg.content (get_language_config envDefault envTarget lookup).target_lang
          = .ok none) :
    handler_message msg isUrl envDefault envTarget lookup
        (fun text target => deepl_translate (world text target)) =
      ⟨[(msg.content, (get_language_config envDefault envTarget lookup).target_lang)],
        ["Failed to translate using DeepL"], false⟩ := by
  have hempty : msg.content.isEmpty = false := by
    cases hc : msg.content.isEmpty with
    | false => rfl
    | true => exact absurd ((String.isEmpty_iff msg.content).mp hc) hne
  rcases hfail with h | ⟨code, h⟩ | h <;>
    simp [handler_message, hbot, hempty, hurl, h, deepl_translate]

/-- Witness for C10: a transport failure on the primary call yields the
single fixed failure notice and no further DeepL call. -/
theorem c10_witness :
    handler_message ⟨false, "hello"⟩ (fun _ => false) none none .noTopic
        (fun text target => deepl_translate ((fun _ _ => HttpOutcome.transport) text target)) =
      ⟨[("hello", "JA")], ["Failed to translate using DeepL"], false⟩ :=
  c10_primary_failure_notice ⟨false, "hello"⟩ (fun _ => false) none none .noTopic
    (fun _ _ => HttpOutcome.transport) rfl (by decide) rfl (Or.inl rfl)

end DdBot
